import Mathlib

/-
Verification development for the `url_scraper_agent` repository
(`scraper.py` single-shot pipeline and `src/objectwire/cli.py` interactive CLI).

Shallow embedding conventions:
* Python `str` values are modelled as `List Char` (abbreviated `Str`);
  only the ASCII behaviour of `.lower()`, `.isdigit()`, `.strip()` and
  `.split()` is modelled, which is all the code paths under study exercise.
* External collaborators (the HTTP layer, BeautifulSoup, feedparser, the
  OpenAI client, the clipboard) are inputs: their observable results are
  passed in as explicit parameters or oracle records.
* `json.loads` (Python stdlib collaborator) is modelled by an executable
  recursive-descent parser over the JSON fragment the code can receive
  (objects, arrays, strings with simple escapes, decimal numbers,
  true/false/null); `\uXXXX` escapes and exponent notation are not
  modelled, and no claim depends on them.
* Floats are modelled as exact decimals (integer mantissa and decimal
  exponent, `PyFloat`); the modelled code never does float arithmetic, it
  only passes float values through and tests them, so this representation
  is faithful for every path under study.
-/

set_option maxRecDepth 8000

namespace UrlScraper

/-- Python strings, modelled as lists of characters. -/
abbrev Str := List Char

/-- ASCII whitespace recognised by Python's default `strip`/`split`. -/
def isSpC (c : Char) : Bool :=
  c = ' ' || c = '\t' || c = '\n' || c = '\r'

/-- Python `str.strip()` (whitespace from both ends). -/
def strip (t : Str) : Str :=
  ((t.dropWhile isSpC).reverse.dropWhile isSpC).reverse

/-- Helper for `splitWs`: accumulates the current word (reversed). -/
def splitWsAux : Str → Str → List Str
  | [], acc => if acc.isEmpty then [] else [acc.reverse]
  | c :: rest, acc =>
    if isSpC c then
      if acc.isEmpty then splitWsAux rest [] else acc.reverse :: splitWsAux rest []
    else splitWsAux rest (c :: acc)

/-- Python `str.split()` with no argument: split on whitespace runs,
dropping empty pieces. -/
def splitWs (t : Str) : List Str := splitWsAux t []

/-- ASCII lowercase of one character (Python `str.lower` restricted to ASCII). -/
def lowerChar (c : Char) : Char :=
  if 65 ≤ c.toNat ∧ c.toNat ≤ 90 then Char.ofNat (c.toNat + 32) else c

/-- ASCII lowercase of a string. -/
def lowerStr (t : Str) : Str := t.map lowerChar

/-- ASCII decimal digit test. -/
def isDigitC (c : Char) : Bool := 48 ≤ c.toNat && c.toNat ≤ 57

/-- Python `str.isdigit()` restricted to ASCII: nonempty and all digits. -/
def isDigitsStr (t : Str) : Bool := !t.isEmpty && t.all isDigitC

/-- Value of a digit string (Python `int(...)` on an all-digit string). -/
def digitsToNat (t : Str) : Nat :=
  t.foldl (fun n c => n * 10 + (c.toNat - 48)) 0

/-- Python `"http://" / "https://"` URL-prefix test used by the CLI dispatch. -/
def isHttpUrl (t : Str) : Bool :=
  "http://".data.isPrefixOf t || "https://".data.isPrefixOf t

end UrlScraper

namespace UrlScraper

/-- A Python float value, represented exactly as `mant / 10 ^ exp`.
The code under study never computes with floats (it only stores, defaults
and truthiness-tests them), so this decimal representation is exact. -/
structure PyFloat where
  mant : Int
  exp : Nat
deriving DecidableEq

/-- The float denoted by an integer literal. -/
def PyFloat.ofInt (n : Int) : PyFloat := ⟨n, 0⟩

/-- JSON values, as produced by `json.loads`. -/
inductive JVal where
  | jnull : JVal
  | jbool (b : Bool) : JVal
  | jnum (q : PyFloat) : JVal
  | jstr (s : Str) : JVal
  | jarr (xs : List JVal) : JVal
  | jobj (fs : List (Str × JVal)) : JVal

/-- A JSON object body: an ordered field list. -/
abbrev JObj := List (Str × JVal)

/-- Python `dict.get(k)` on a parsed JSON object (first occurrence; the
parser below never produces duplicate keys for the inputs considered). -/
def jget (k : Str) : JObj → Option JVal
  | [] => none
  | (k', v) :: rest => if k' = k then some v else jget k rest

end UrlScraper

namespace UrlScraper

/-- Skip JSON insignificant whitespace. -/
def skipWs (t : Str) : Str := t.dropWhile isSpC

/-- Decode one character escape inside a JSON string (`\uXXXX` not modelled). -/
def escChar (c : Char) : Option Char :=
  if c = '"' then some '"'
  else if c = '\\' then some '\\'
  else if c = '/' then some '/'
  else if c = 'n' then some '\n'
  else if c = 't' then some '\t'
  else if c = 'r' then some '\r'
  else if c = 'b' then some (Char.ofNat 8)
  else if c = 'f' then some (Char.ofNat 12)
  else none

/-- Parse the body of a JSON string after the opening quote; returns the
decoded content and the remainder after the closing quote. -/
def parseStrBody : Str → Option (Str × Str)
  | [] => none
  | c :: rest =>
    if c = '"' then some ([], rest)
    else if c = '\\' then
      match rest with
      | [] => none
      | e :: rest2 =>
        match escChar e with
        | some ce => (parseStrBody rest2).map (fun p => (ce :: p.1, p.2))
        | none => none
    else (parseStrBody rest).map (fun p => (c :: p.1, p.2))

/-- Longest ASCII-digit run at the front of a string, and the remainder. -/
def takeDigits (t : Str) : Str × Str := (t.takeWhile isDigitC, t.dropWhile isDigitC)

/-- Parse a JSON number (optional sign, integer part, optional fraction;
exponent notation not modelled).  The decoded value `m.f` is the decimal
`digits(m ++ f) / 10 ^ len(f)`. -/
def parseNum (t : Str) : Option (PyFloat × Str) :=
  let signed := match t with
    | c :: r => if c = '-' then (true, r) else (false, t)
    | [] => (false, t)
  let (ds, r1) := takeDigits signed.2
  if ds.isEmpty then none
  else
    let withFrac : Option (PyFloat × Str) := match r1 with
      | c :: r2 =>
        if c = '.' then
          let (fs, r3) := takeDigits r2
          if fs.isEmpty then none
          else some (⟨(digitsToNat (ds ++ fs) : Int), fs.length⟩, r3)
        else some (⟨(digitsToNat ds : Int), 0⟩, r1)
      | [] => some (⟨(digitsToNat ds : Int), 0⟩, r1)
    withFrac.map (fun p => (if signed.1 then ⟨-p.1.mant, p.1.exp⟩ else p.1, p.2))

mutual

/-- Fuel-bounded recursive-descent parser for one JSON value. -/
def parseVal : Nat → Str → Option (JVal × Str)
  | 0, _ => none
  | fuel + 1, s0 =>
    let s := skipWs s0
    match s with
    | [] => none
    | c :: rest =>
      if c = '\x7b' then
        let s1 := skipWs rest
        match s1 with
        | d :: r2 => if d = '\x7d' then some (JVal.jobj [], r2) else parseMembers fuel s1 []
        | [] => none
      else if c = '[' then
        let s1 := skipWs rest
        match s1 with
        | d :: r2 => if d = ']' then some (JVal.jarr [], r2) else parseItems fuel s1 []
        | [] => none
      else if c = '"' then
        (parseStrBody rest).map (fun p => (JVal.jstr p.1, p.2))
      else if "true".data.isPrefixOf s then some (JVal.jbool true, s.drop 4)
      else if "false".data.isPrefixOf s then some (JVal.jbool false, s.drop 5)
      else if "null".data.isPrefixOf s then some (JVal.jnull, s.drop 4)
      else (parseNum s).map (fun p => (JVal.jnum p.1, p.2))

/-- Fuel-bounded parser for the members of a JSON object (after `{`). -/
def parseMembers : Nat → Str → JObj → Option (JVal × Str)
  | 0, _, _ => none
  | fuel + 1, s, acc =>
    match skipWs s with
    | c :: r =>
      if c = '"' then
        match parseStrBody r with
        | none => none
        | some (k, r2) =>
          match skipWs r2 with
          | d :: r4 =>
            if d = ':' then
              match parseVal fuel r4 with
              | none => none
              | some (v, r5) =>
                match skipWs r5 with
                | e :: r7 =>
                  if e = ',' then parseMembers fuel r7 (acc ++ [(k, v)])
                  else if e = '\x7d' then some (JVal.jobj (acc ++ [(k, v)]), r7)
                  else none
                | [] => none
            else none
          | [] => none
      else none
    | [] => none

/-- Fuel-bounded parser for the items of a JSON array (after `[`). -/
def parseItems : Nat → Str → List JVal → Option (JVal × Str)
  | 0, _, _ => none
  | fuel + 1, s, acc =>
    match parseVal fuel s with
    | none => none
    | some (v, r) =>
      match skipWs r with
      | c :: r2 =>
        if c = ',' then parseItems fuel r2 (acc ++ [v])
        else if c = ']' then some (JVal.jarr (acc ++ [v]), r2)
        else none
      | [] => none

end

/-- Model of Python `json.loads` (stdlib collaborator): parse one value and
require that only whitespace remains. -/
def json_loads (t : Str) : Option JVal :=
  match parseVal (t.length + 2) t with
  | some (v, rest) => if (skipWs rest).isEmpty then some v else none
  | none => none

/-- Python truthiness of a JSON-decoded value (`if x:` semantics). -/
def truthy : JVal → Bool
  | JVal.jnull => false
  | JVal.jbool b => b
  | JVal.jnum q => decide (q.mant ≠ 0)
  | JVal.jstr s => !s.isEmpty
  | JVal.jarr xs => !xs.isEmpty
  | JVal.jobj fs => !fs.isEmpty

end UrlScraper

namespace UrlScraper

/-- The record built by `scrape` / `scrape_url` for a successfully fetched
and sufficiently long page. -/
structure ScrapedPage where
  title : Str
  content : Str
  url : Str
  domain : Str
deriving DecidableEq

/-- The `PredictionEvent` of `scraper.py` (the variant with `resolution_date`). -/
structure PredictionEvent where
  title : Str
  description : Str
  category : Str
  options : List Str
  confidence : PyFloat
  source_url : Str
  resolution_date : Str
deriving DecidableEq

/-- What BeautifulSoup (external collaborator) yields for a fetched document
after the noise elements (script/style/nav/header/footer/aside) are removed:
the document title's text when a title element exists, and the visible text
of `article`/`main`/`body` when such a node exists. -/
structure HtmlDoc where
  titleText : Option Str
  mainText : Option Str
deriving DecidableEq

/-- Model of `scrape` (scraper.py) / `scrape_url` (cli.py) after the network fetch:
`fetched = none` models all three fetch attempts failing; otherwise the
title defaults to "Untitled", the content is truncated to 5000 characters,
and pages shorter than 100 characters are rejected.  `domain` stands for
`urlparse(url).netloc` (stdlib collaborator). -/
def scrape_url (fetched : Option HtmlDoc) (url : Str) (domain : Str) :
    Option ScrapedPage :=
  match fetched with
  | none => none
  | some doc =>
    let title := doc.titleText.getD "Untitled".data
    let content := (doc.mainText.getD []).take 5000
    if content.length < 100 then none
    else some ⟨title, content, url, domain⟩

/-- Index of the first occurrence of a character (Python `str.find`,
with `none` for `-1`). -/
def pyFindAux (c : Char) : Str → Option Nat
  | [] => none
  | x :: xs => if x = c then some 0 else (pyFindAux c xs).map (· + 1)

/-- Python `str.find`, `none` standing for `-1`. -/
def pyFind (c : Char) (t : Str) : Option Nat := pyFindAux c t

/-- Python `str.rfind`, `none` standing for `-1`. -/
def pyRfind (c : Char) (t : Str) : Option Nat :=
  (pyFindAux c t.reverse).map (fun i => t.length - 1 - i)

/-- The JSON-locating step of `analyze`:
`start = text.find('{')`, `end = text.rfind('}') + 1`, and the slice
`text[start:end]` is used when `start >= 0 and end > start`.
With `none` for `-1`, that guard is exactly: both characters occur and the
first `\x7b` is at or before the last `\x7d`. -/
def locate (t : Str) : Option Str :=
  match pyFind '\x7b' t, pyRfind '\x7d' t with
  | some i, some j => if i ≤ j then some ((t.drop i).take (j + 1 - i)) else none
  | _, _ => none

/-- Depth-counting scanner used by `firstBalancedSpan`; `depth` is the
number of currently open braces. -/
def balSpanAux : Str → Nat → Str → Option Str
  | [], _, _ => none
  | c :: rest, depth, acc =>
    if c = '\x7b' then balSpanAux rest (depth + 1) (c :: acc)
    else if c = '\x7d' then
      if depth ≤ 1 then some (c :: acc).reverse
      else balSpanAux rest (depth - 1) (c :: acc)
    else balSpanAux rest depth (c :: acc)

/-- Modelled from the spec: "Extracts the first balanced `\x7b...\x7d` span
from the raw response text" — the substring from the first `\x7b` to its
matching `\x7d`.  This is the spec's description of the locating step, kept
separate from `locate` (the code's behaviour) so the two can be compared. -/
def firstBalancedSpan (t : Str) : Option Str :=
  match pyFind '\x7b' t with
  | some i => balSpanAux (t.drop i) 0 []
  | none => none

/-- Coercion pydantic applies to a `str` field (pydantic v2 accepts only
actual strings there; `None`, numbers, lists all raise `ValidationError`). -/
def asStr : JVal → Option Str
  | JVal.jstr s => some s
  | _ => none

/-- Coercion pydantic applies to a `list[str]` field. -/
def asStrList : JVal → Option (List Str)
  | JVal.jarr xs => xs.mapM asStr
  | _ => none

/-- Python `float(...)` on a JSON-decoded value: floats pass through, bools
become 0/1, numeric strings are parsed (exponent/inf/nan forms unmodelled —
no code path under study receives them), everything else raises. -/
def pyFloatOf : JVal → Option PyFloat
  | JVal.jnum q => some q
  | JVal.jbool b => some ⟨if b then 1 else 0, 0⟩
  | JVal.jstr s =>
    (match parseNum (strip s) with
     | some (q, rest) => if rest.isEmpty then some q else none
     | none => none)
  | _ => none

/-- The fixed default far-future resolution timestamp. -/
def defaultResolutionDate : Str := "2025-12-31T23:59:00-05:00".data

/-- Default title used when the LLM response has no `title` field. -/
def defaultTitle (p : ScrapedPage) : Str :=
  "Prediction: ".data ++ p.title.take 60 ++ "?".data

/-- The deterministic fallback event of `analyze` (scraper.py lines 125-133). -/
def fallbackEvent (p : ScrapedPage) : PredictionEvent :=
  { title := "Will \x27".data ++ p.title.take 50 ++ "\x27 predictions come true?".data
    description := "Based on: ".data ++ p.title
    category := "general".data
    options := ["Yes".data, "No".data, "Partially".data]
    confidence := ⟨5, 1⟩
    source_url := p.url
    resolution_date := defaultResolutionDate }

/-- Python `data.get('title', default)` + pydantic validation for one `str` field. -/
def getStrField (fields : JObj) (k : Str) (dflt : Str) : Option Str :=
  match jget k fields with
  | none => some dflt
  | some v => asStr v

/-- Python `data.get('options', ['Yes', 'No'])` + pydantic `list[str]` validation. -/
def getOptionsField (fields : JObj) : Option (List Str) :=
  match jget "options".data fields with
  | none => some ["Yes".data, "No".data]
  | some v => asStrList v

/-- Python `float(data.get('confidence', 0.7))`. -/
def getConfField (fields : JObj) : Option PyFloat :=
  match jget "confidence".data fields with
  | none => some ⟨7, 1⟩
  | some v => pyFloatOf v

/-- Construction of the `PredictionEvent` from the parsed LLM JSON object
(scraper.py lines 112-120); `none` models the construction raising
(pydantic `ValidationError` or `float()` failure), which `analyze` turns
into the fallback. -/
def buildEvent (fields : JObj) (p : ScrapedPage) : Option PredictionEvent :=
  match getStrField fields "title".data (defaultTitle p) with
  | none => none
  | some t =>
    match getStrField fields "description".data (p.content.take 200) with
    | none => none
    | some d =>
      match getStrField fields "category".data "general".data with
      | none => none
      | some c =>
        match getOptionsField fields with
        | none => none
        | some o =>
          match getConfField fields with
          | none => none
          | some cf =>
            match getStrField fields "resolution_date".data defaultResolutionDate with
            | none => none
            | some rd => some ⟨t, d, c, o, cf, p.url, rd⟩

/-- Model of `analyze` (scraper.py): `llm = some text` is the raw response text of a
configured, successful ChatCompletion call; `llm = none` models "no API key
configured" or the call itself raising.  Every failure inside the LLM path
(no brace span, `json.loads` raising, a non-object JSON document, or event
construction raising) silently falls through to the fallback. -/
def analyze (llm : Option Str) (p : ScrapedPage) : PredictionEvent :=
  match llm with
  | none => fallbackEvent p
  | some text =>
    match locate text with
    | none => fallbackEvent p
    | some span =>
      match json_loads span with
      | some (JVal.jobj fields) =>
        (match buildEvent fields p with
         | some ev => ev
         | none => fallbackEvent p)
      | _ => fallbackEvent p

/-- The JSON object the LLM path of `analyze` works from, if it gets that
far: locate the brace span, parse it, and require a JSON object. -/
def llmFields (llm : Option Str) : Option JObj :=
  match llm with
  | none => none
  | some text =>
    match locate text with
    | none => none
    | some span =>
      match json_loads span with
      | some (JVal.jobj fields) => some fields
      | _ => none

end UrlScraper

namespace UrlScraper

/-- Python `a or b` on JSON-decoded values (`None` as `jnull`). -/
def pyOrJ (a b : JVal) : JVal := if truthy a then a else b

/-- Python `data.get(k)` with `None` (here `jnull`) for an absent key. -/
def jgetOrNull (data : JObj) (k : Str) : JVal := (jget k data).getD JVal.jnull

/-- The identifier extraction of `post_to_blockchain` (scraper.py line 159):
`data.get('id') or data.get('market_id') or data.get('event_id')`. -/
def extract_event_id (data : JObj) : JVal :=
  pyOrJ (jgetOrNull data "id".data)
    (pyOrJ (jgetOrNull data "market_id".data) (jgetOrNull data "event_id".data))

/-- Model of `post_to_blockchain` (scraper.py): `health` is the `/health` status code
(`none` = the GET raised); `resp` is the decoded JSON body of a 2xx POST
response (`none` = the POST raised or returned non-2xx).  On success the
function returns the extracted identifier, which is Python `None` (`jnull`)
when all three fields are absent or falsy. -/
def post_to_blockchain (health : Option Nat) (resp : Option JObj) : Option JVal :=
  match health with
  | none => none
  | some code =>
    if code = 200 then
      match resp with
      | none => none
      | some data => some (extract_event_id data)
    else none

end UrlScraper

namespace UrlScraper

/-- A feedparser entry (external collaborator), as a partial record:
`none` models an absent key for `entry.get`. -/
structure FPEntry where
  etitle : Option Str
  elink : Option Str
  esummary : Option Str
  edescription : Option Str
  epublished : Option Str
deriving DecidableEq

/-- A feedparser parse result: the `bozo` malformed-document flag, the
optional feed-level title and link, and the entry list. -/
structure FPFeed where
  bozo : Bool
  ftitle : Option Str
  flink : Option Str
  entries : List FPEntry
deriving DecidableEq

/-- The per-item record built by `parse_rss` (cli.py lines 351-356). -/
structure FeedItem where
  title : Str
  link : Str
  summary : Str
  published : Str
deriving DecidableEq

/-- The feed record built by `parse_rss`. -/
structure Feed where
  title : Str
  link : Str
  items : List FeedItem
deriving DecidableEq

/-- One entry of the feed mapped to a `FeedItem`:
`title` defaults to "Untitled", `link`/`published` to the empty string, and
`summary` falls back to the `description` field (empty if both absent),
truncated to 200 characters. -/
def entryToItem (e : FPEntry) : FeedItem :=
  { title := e.etitle.getD "Untitled".data
    link := e.elink.getD []
    summary := ((e.esummary.getD (e.edescription.getD []))).take 200
    published := e.epublished.getD [] }

/-- Model of `parse_rss` (cli.py): `fp = none` models any exception inside the body
being caught; a parse that reports `bozo` and yields zero entries is
rejected; otherwise every entry maps to a `FeedItem`. -/
def parse_rss (fp : Option FPFeed) (url : Str) : Option Feed :=
  match fp with
  | none => none
  | some f =>
    if f.bozo && f.entries.isEmpty then none
    else
      some { title := f.ftitle.getD "Unknown Feed".data
             link := f.flink.getD url
             items := f.entries.map entryToItem }

end UrlScraper

namespace UrlScraper

/-- The `PredictionEvent` of cli.py — this variant has no `resolution_date`. -/
structure CliEvent where
  title : Str
  description : Str
  category : Str
  options : List Str
  confidence : PyFloat
  source_url : Str
deriving DecidableEq

/-- The deterministic fallback event of cli.py's `analyze` (lines 297-304). -/
def cli_fallbackEvent (p : ScrapedPage) : CliEvent :=
  { title := "Will \x27".data ++ p.title.take 50 ++ "\x27 predictions come true?".data
    description := "Based on: ".data ++ p.title
    category := "general".data
    options := ["Yes".data, "No".data, "Partially".data]
    confidence := ⟨5, 1⟩
    source_url := p.url }

/-- Event construction from the parsed LLM JSON object, cli.py variant
(lines 285-292, no `resolution_date` field). -/
def cli_buildEvent (fields : JObj) (p : ScrapedPage) : Option CliEvent :=
  match getStrField fields "title".data (defaultTitle p) with
  | none => none
  | some t =>
    match getStrField fields "description".data (p.content.take 200) with
    | none => none
    | some d =>
      match getStrField fields "category".data "general".data with
      | none => none
      | some c =>
        match getOptionsField fields with
        | none => none
        | some o =>
          match getConfField fields with
          | none => none
          | some cf => some ⟨t, d, c, o, cf, p.url⟩

/-- Model of `analyze` of cli.py (lines 264-304), structured exactly like
`analyze` of scraper.py but producing the `resolution_date`-free event. -/
def cli_analyze (llm : Option Str) (p : ScrapedPage) : CliEvent :=
  match llm with
  | none => cli_fallbackEvent p
  | some text =>
    match locate text with
    | none => cli_fallbackEvent p
    | some span =>
      match json_loads span with
      | some (JVal.jobj fields) =>
        (match cli_buildEvent fields p with
         | some ev => ev
         | none => cli_fallbackEvent p)
      | _ => cli_fallbackEvent p

/-- The interactive session's mutable context (cli.py lines 517-518):
the last produced event and the last stored feed listing. -/
structure SessionState where
  last_event : Option CliEvent
  last_rss_items : List FeedItem
deriving DecidableEq

/-- The external collaborators one REPL iteration can consult, fixed for
that iteration: the scrape pipeline result per URL, the raw LLM response
(if configured and successful), the feedparser result per URL, the
clipboard content, the POST `/ai/events` response body, and the operator's
reply to the post-confirmation prompt. -/
structure World where
  scrape : Str → Option ScrapedPage
  llm : Option Str
  feeds : Str → Option FPFeed
  clip : Option Str
  postResp : Option JObj
  confirm : Str

/-- Python truthiness of `post_to_blockchain`'s cli.py return value
(`None` or the decoded response dict). -/
def truthyResp (r : Option JObj) : Bool :=
  match r with
  | some d => !d.isEmpty
  | none => false

/-- Observable effects of one REPL iteration: outbound calls
(`scrapeCall`, `feedCall`, `postCall`) and operator-visible messages.
Rendering details (tables, panels, JSON/XML formatting) are external. -/
inductive Out where
  | scrapeCall (url : Str) : Out
  | feedCall (url : Str) : Out
  | postCall (ev : CliEvent) : Out
  | msgOutOfRange (mx : Nat) : Out
  | msgArticleScrapeFailed : Out
  | msgEventShown (ev : CliEvent) : Out
  | msgAutoPost (ok : Bool) : Out
  | msgBye : Out
  | msgHelp : Out
  | msgStatus : Out
  | msgUsageScrape : Out
  | msgScrapeFailed : Out
  | msgUsageRss : Out
  | msgRssFailed : Out
  | msgRssListing (items : List FeedItem) : Out
  | msgNoEvent : Out
  | msgPreview (ev : CliEvent) : Out
  | msgCancelled : Out
  | msgPostResult (ok : Bool) : Out
  | msgCopyNoEvent : Out
  | msgCopied : Out
  | msgClipEmpty : Out
  | msgNotUrl : Out
  | msgFeedShown (items : List FeedItem) : Out
  | msgFeedStored (items : List FeedItem) : Out
  | msgPasteScrapeFailed : Out
  | msgUrlParseFailed : Out
  | msgUnknown : Out
deriving DecidableEq

/-- Numeric article selection (cli.py lines 531-581).  In range: scrape the
selected item's link, synthesize, store as `last_event` (the JSON/XML/panel
display is rendering).  Out of range: report the valid range `1..len`,
change nothing. -/
def numericSelect (w : World) (st : SessionState) (n : Nat) :
    SessionState × List Out :=
  if 1 ≤ n ∧ n ≤ st.last_rss_items.length then
    let item := st.last_rss_items.getD (n - 1) ⟨[], [], [], []⟩
    match w.scrape item.link with
    | none => (st, [Out.scrapeCall item.link, Out.msgArticleScrapeFailed])
    | some d =>
      let ev := cli_analyze w.llm d
      ({ st with last_event := some ev },
        [Out.scrapeCall item.link, Out.msgEventShown ev])
  else (st, [Out.msgOutOfRange st.last_rss_items.length])

/-- The `scrape <url>` command (cli.py lines 597-630): scrape, synthesize,
store `last_event`, then auto-post to the blockchain. -/
def scrapeFlow (w : World) (st : SessionState) (args : Str) :
    SessionState × List Out :=
  if args.isEmpty then (st, [Out.msgUsageScrape])
  else
    match w.scrape args with
    | none => (st, [Out.scrapeCall args, Out.msgScrapeFailed])
    | some d =>
      let ev := cli_analyze w.llm d
      ({ st with last_event := some ev },
        [Out.scrapeCall args, Out.msgEventShown ev, Out.postCall ev,
          Out.msgAutoPost (truthyResp w.postResp)])

/-- The `rss <url>` command (cli.py lines 633-658): parse, store the first
15 items as `last_rss_items`, render the listing. -/
def rssFlow (w : World) (st : SessionState) (args : Str) :
    SessionState × List Out :=
  if args.isEmpty then (st, [Out.msgUsageRss])
  else
    match parse_rss (w.feeds args) args with
    | none => (st, [Out.feedCall args, Out.msgRssFailed])
    | some f =>
      let items := f.items.take 15
      ({ st with last_rss_items := items },
        [Out.feedCall args, Out.msgRssListing items])

/-- The `post` command (cli.py lines 661-701): requires `last_event`,
previews the payload, posts only on an explicit `y`/`yes` reply. -/
def postFlow (w : World) (st : SessionState) : SessionState × List Out :=
  match st.last_event with
  | none => (st, [Out.msgNoEvent])
  | some ev =>
    if lowerStr (strip w.confirm) = "y".data ∨ lowerStr (strip w.confirm) = "yes".data then
      (st, [Out.msgPreview ev, Out.postCall ev,
        Out.msgPostResult (truthyResp w.postResp)])
    else (st, [Out.msgPreview ev, Out.msgCancelled])

/-- The `copy` command (cli.py lines 704-721); serialization and the
clipboard write are external. -/
def copyFlow (st : SessionState) : SessionState × List Out :=
  match st.last_event with
  | none => (st, [Out.msgCopyNoEvent])
  | some _ => (st, [Out.msgCopied])

/-- Shared page-scrape tail of both URL-processing branches: scrape,
synthesize, store `last_event`, auto-post; `failMsg` is the
branch-specific failure message. -/
def scrapeAsPage (w : World) (st : SessionState) (url : Str) (failMsg : Out) :
    SessionState × List Out :=
  match w.scrape url with
  | none => (st, [Out.scrapeCall url, failMsg])
  | some d =>
    let ev := cli_analyze w.llm d
    ({ st with last_event := some ev },
      [Out.scrapeCall url, Out.msgEventShown ev, Out.postCall ev,
        Out.msgAutoPost (truthyResp w.postResp)])

/-- The bare-URL auto-detect branch (cli.py lines 788-844): try the feed
reader first; a feed with at least one item is stored (first 3 items) for
numeric selection; otherwise fall through to the page scrape. -/
def autoDetect (w : World) (st : SessionState) (url : Str) :
    SessionState × List Out :=
  match parse_rss (w.feeds url) url with
  | some f =>
    if f.items.isEmpty then
      let r := scrapeAsPage w st url Out.msgUrlParseFailed
      (r.1, Out.feedCall url :: r.2)
    else
      let items := f.items.take 3
      ({ st with last_rss_items := items },
        [Out.feedCall url, Out.msgFeedStored items])
  | none =>
    let r := scrapeAsPage w st url Out.msgUrlParseFailed
    (r.1, Out.feedCall url :: r.2)

/-- The `paste` command (cli.py lines 724-784): read the clipboard; URLs
re-run content detection.  Note that in the feed case the three items are
only displayed — `last_rss_items` is NOT assigned in this branch. -/
def pasteFlow (w : World) (st : SessionState) : SessionState × List Out :=
  match w.clip with
  | none => (st, [Out.msgClipEmpty])
  | some txt =>
    if txt.isEmpty then (st, [Out.msgClipEmpty])
    else if isHttpUrl txt then
      match parse_rss (w.feeds txt) txt with
      | some f =>
        if f.items.isEmpty then
          let r := scrapeAsPage w st txt Out.msgPasteScrapeFailed
          (r.1, Out.feedCall txt :: r.2)
        else (st, [Out.feedCall txt, Out.msgFeedShown (f.items.take 3)])
      | none =>
        let r := scrapeAsPage w st txt Out.msgPasteScrapeFailed
        (r.1, Out.feedCall txt :: r.2)
    else (st, [Out.msgNotUrl])

/-- Python `" ".join(tokens)`. -/
def joinSpace : List Str → Str
  | [] => []
  | [t] => t
  | t :: rest => t ++ ' ' :: joinSpace rest

/-- Dispatch of one tokenised REPL line, in the source's priority order
(numeric selection, keyword commands, bare-URL auto-detect, unknown);
`cmd` is the whole stripped line, `tok :: restToks` its whitespace split. -/
def dispatchTok (w : World) (st : SessionState) (cmd tok : Str)
    (restToks : List Str) : SessionState × List Out :=
  let action := lowerStr tok
  let args := joinSpace restToks
  if isDigitsStr action && !st.last_rss_items.isEmpty then
    numericSelect w st (digitsToNat action)
  else if action = "exit".data ∨ action = "quit".data ∨ action = "q".data then
    (st, [Out.msgBye])
  else if action = "help".data then (st, [Out.msgHelp])
  else if action = "status".data then (st, [Out.msgStatus])
  else if action = "scrape".data then scrapeFlow w st args
  else if action = "rss".data then rssFlow w st args
  else if action = "post".data then postFlow w st
  else if action = "copy".data ∨ action = "c".data then copyFlow st
  else if action = "paste".data ∨ action = "v".data ∨ action = "pv".data then
    pasteFlow w st
  else if isHttpUrl cmd then autoDetect w st cmd
  else (st, [Out.msgUnknown])

/-- One iteration of the interactive REPL (cli.py lines 520-847): strip the
input, split into tokens, and dispatch; an all-whitespace line is skipped. -/
def step (w : World) (st : SessionState) (input : Str) :
    SessionState × List Out :=
  let cmd := strip input
  match splitWs cmd with
  | [] => (st, [])
  | tok :: restToks => dispatchTok w st cmd tok restToks

end UrlScraper

namespace UrlScraper

/-- A concrete scraped page used in concrete evaluations: title
"Example Domain", content of length 850 (the spec's end-to-end scenario). -/
def examplePage : ScrapedPage :=
  ⟨"Example Domain".data, List.replicate 850 'a', "http://example.com".data,
    "example.com".data⟩

/-- The event built from `\x7b"options": ["A","B","C"]\x7d` on `examplePage`. -/
def C1ev : PredictionEvent :=
  ⟨"Prediction: Example Domain?".data, List.replicate 200 'a', "general".data,
    ["A".data, "B".data, "C".data], ⟨7, 1⟩, "http://example.com".data,
    defaultResolutionDate⟩

/-- The event built from the empty LLM object on `examplePage`: every
field takes its documented default. -/
def C2ev : PredictionEvent :=
  ⟨"Prediction: Example Domain?".data, List.replicate 200 'a', "general".data,
    ["Yes".data, "No".data], ⟨7, 1⟩, "http://example.com".data,
    defaultResolutionDate⟩

/-- The two-object LLM response used to refute the first-balanced-span
claim. -/
def twoObjTxt : Str := "\x7b\"a\": 1\x7d \x7b\"b\": 2\x7d".data

/-- The item selected by a numeric command `n` (1-based). -/
def selectedItem (st : SessionState) (n : Nat) : FeedItem :=
  st.last_rss_items.getD (n - 1) ⟨[], [], [], []⟩

/-- Concrete worlds and states for the session-level witnesses. -/
def evW : CliEvent :=
  ⟨"t".data, "d".data, "general".data, ["Yes".data, "No".data], ⟨5, 1⟩, "u".data⟩

def stEvW : SessionState := ⟨some evW, []⟩

def wNoW : World :=
  { scrape := fun _ => none
    llm := none
    feeds := fun _ => none
    clip := none
    postResp := none
    confirm := "n".data }

def wYesW : World := { wNoW with confirm := " Y ".data, postResp := some [("id".data, JVal.jnum ⟨3, 0⟩)] }

/-- The feed entry, item and session state shared by the session-level
concrete scenarios. -/
def entA : FPEntry :=
  ⟨some "A1".data, some "http://e.x/a1".data, none, none, none⟩

def itemA : FeedItem := entryToItem entA

def stOneItem : SessionState := ⟨none, [itemA]⟩

/-- A one-item feed world whose clipboard holds the feed's URL. -/
def fpA : FPFeed := ⟨false, some "FeedA".data, none, [entA]⟩

def urlA : Str := "http://e.x/feed".data

def feedA : Feed := ⟨"FeedA".data, urlA, [itemA]⟩

def wFeedW : World :=
  { wNoW with clip := some urlA, feeds := fun u => if u = urlA then some fpA else none }

end UrlScraper

namespace UrlScraper

/-- Factoring `analyze` through `llmFields`: once the LLM path has produced a
parsed JSON object, the result is the built event if construction succeeds
and the fallback otherwise; every earlier failure also yields the fallback. -/
theorem analyze_eq_llmFields (llm : Option Str) (p : ScrapedPage) :
    analyze llm p =
      (match llmFields llm with
       | some fields => (buildEvent fields p).getD (fallbackEvent p)
       | none => fallbackEvent p) := by
  cases llm with
  | none => rfl
  | some text =>
    cases hl : locate text with
    | none => simp [analyze, llmFields, hl]
    | some span =>
      cases hj : json_loads span with
      | none => simp [analyze, llmFields, hl, hj]
      | some v =>
        cases v <;> simp [analyze, llmFields, hl, hj]
        case jobj fields =>
          cases hb : buildEvent fields p <;> simp [hb]

/-- A successful event construction determines every field through the
corresponding getter. -/
theorem buildEvent_proj {fields : JObj} {p : ScrapedPage} {ev : PredictionEvent}
    (h : buildEvent fields p = some ev) :
    getStrField fields "title".data (defaultTitle p) = some ev.title ∧
    getStrField fields "description".data (p.content.take 200) = some ev.description ∧
    getStrField fields "category".data "general".data = some ev.category ∧
    getOptionsField fields = some ev.options ∧
    getConfField fields = some ev.confidence ∧
    getStrField fields "resolution_date".data defaultResolutionDate = some ev.resolution_date ∧
    ev.source_url = p.url := by
  unfold buildEvent at h
  split at h
  · exact Option.noConfusion h
  split at h
  · exact Option.noConfusion h
  split at h
  · exact Option.noConfusion h
  split at h
  · exact Option.noConfusion h
  split at h
  · exact Option.noConfusion h
  split at h
  · exact Option.noConfusion h
  injection h with h'
  subst h'
  refine ⟨?_, ?_, ?_, ?_, ?_, ?_, rfl⟩ <;> assumption

end UrlScraper

namespace UrlScraper

/-- C1: `analyze` guarantees at least two options only when the parsed LLM
response does not itself supply an `options` field (defaults `["Yes","No"]`
and the fallback's three options); an `options` list supplied by the
response is passed through unvalidated, so its length can be below 2
(amended from: the options sequence always has length at least 2). -/
theorem C1_options_length :
    ∀ (llm : Option Str) (p : ScrapedPage),
      ((∀ fields, llmFields llm = some fields → jget "options".data fields = none) →
        2 ≤ (analyze llm p).options.length) ∧
      (∀ fields v opts ev, llmFields llm = some fields →
        jget "options".data fields = some v → asStrList v = some opts →
        buildEvent fields p = some ev →
        analyze llm p = ev ∧ ev.options = opts) := by
  intro llm p
  constructor
  · intro hno
    rw [analyze_eq_llmFields]
    cases hf : llmFields llm with
    | none => simp [fallbackEvent]
    | some fields =>
      have hopt := hno fields hf
      cases hb : buildEvent fields p with
      | none => simp [hb, fallbackEvent]
      | some ev =>
        have hp := (buildEvent_proj hb).2.2.2.1
        simp only [getOptionsField, hopt] at hp
        injection hp with hp
        simp [hb, ← hp]
  · intro fields v opts ev hf hv hl hb
    constructor
    · rw [analyze_eq_llmFields, hf]
      simp [hb]
    · have hp := (buildEvent_proj hb).2.2.2.1
      simp only [getOptionsField, hv, hl] at hp
      injection hp with hp
      exact hp.symm

/-- C1 counterexample: an LLM response supplying a one-element options list
produces an event whose options sequence has length 1, refuting the claimed
invariant `length ≥ 2`. -/
theorem C1_counterexample :
    (analyze (some "\x7b\"options\": [\"Yes\"]\x7d".data) examplePage).options
      = ["Yes".data] ∧
    ¬ 2 ≤ (analyze (some "\x7b\"options\": [\"Yes\"]\x7d".data) examplePage).options.length :=
  ⟨rfl, by decide⟩

theorem C1_witness :
    llmFields (some "\x7b\x7d".data) = some ([] : JObj) ∧
    2 ≤ (analyze (some "\x7b\x7d".data) examplePage).options.length ∧
    (analyze (some "\x7b\"options\": [\"A\", \"B\", \"C\"]\x7d".data) examplePage).options
      = ["A".data, "B".data, "C".data] := by
  refine ⟨rfl, ?_, ?_⟩
  · exact (C1_options_length (some "\x7b\x7d".data) examplePage).1
      (fun fields hf => by
        have h0 : llmFields (some "\x7b\x7d".data) = some ([] : JObj) := rfl
        rw [h0] at hf
        injection hf with hf
        rw [← hf]
        rfl)
  · have h := (C1_options_length
        (some "\x7b\"options\": [\"A\", \"B\", \"C\"]\x7d".data) examplePage).2
      [("options".data, JVal.jarr [JVal.jstr "A".data, JVal.jstr "B".data, JVal.jstr "C".data])]
      (JVal.jarr [JVal.jstr "A".data, JVal.jstr "B".data, JVal.jstr "C".data])
      ["A".data, "B".data, "C".data] C1ev rfl rfl rfl rfl
    rw [h.1]
    exact h.2

end UrlScraper

namespace UrlScraper

/-- C2: when the parsed LLM object is ABSENT a required field, the built
event takes the documented per-field default; but a field PRESENT with a
null value makes the event construction fail, so `analyze` produces the
fallback event instead of a per-field-defaulted one (amended from: a null
field is also replaced by its per-field default).  No field of a produced
event can be null or absent: both event types are total records. -/
theorem C2_missing_field_defaults :
    ∀ (p : ScrapedPage) (fields : JObj),
      (∀ ev, buildEvent fields p = some ev →
        (jget "title".data fields = none → ev.title = defaultTitle p) ∧
        (jget "description".data fields = none → ev.description = p.content.take 200) ∧
        (jget "category".data fields = none → ev.category = "general".data) ∧
        (jget "options".data fields = none → ev.options = ["Yes".data, "No".data]) ∧
        (jget "confidence".data fields = none → ev.confidence = ⟨7, 1⟩) ∧
        (jget "resolution_date".data fields = none →
          ev.resolution_date = defaultResolutionDate)) ∧
      ((jget "title".data fields = some JVal.jnull ∨
        jget "description".data fields = some JVal.jnull ∨
        jget "category".data fields = some JVal.jnull ∨
        jget "options".data fields = some JVal.jnull ∨
        jget "confidence".data fields = some JVal.jnull ∨
        jget "resolution_date".data fields = some JVal.jnull) →
        buildEvent fields p = none) ∧
      (∀ llm, llmFields llm = some fields → buildEvent fields p = none →
        analyze llm p = fallbackEvent p) := by
  intro p fields
  refine ⟨?_, ?_, ?_⟩
  · intro ev hb
    have hp := buildEvent_proj hb
    refine ⟨?_, ?_, ?_, ?_, ?_, ?_⟩
    · intro hn
      have h := hp.1
      simp only [getStrField, hn] at h
      injection h with h
      exact h.symm
    · intro hn
      have h := hp.2.1
      simp only [getStrField, hn] at h
      injection h with h
      exact h.symm
    · intro hn
      have h := hp.2.2.1
      simp only [getStrField, hn] at h
      injection h with h
      exact h.symm
    · intro hn
      have h := hp.2.2.2.1
      simp only [getOptionsField, hn] at h
      injection h with h
      exact h.symm
    · intro hn
      have h := hp.2.2.2.2.1
      simp only [getConfField, hn] at h
      injection h with h
      exact h.symm
    · intro hn
      have h := hp.2.2.2.2.2.1
      simp only [getStrField, hn] at h
      injection h with h
      exact h.symm
  · intro hnull
    cases hbe : buildEvent fields p with
    | none => rfl
    | some ev =>
      exfalso
      have hp := buildEvent_proj hbe
      rcases hnull with h | h | h | h | h | h
      · have h1 := hp.1
        simp [getStrField, h, asStr] at h1
      · have h1 := hp.2.1
        simp [getStrField, h, asStr] at h1
      · have h1 := hp.2.2.1
        simp [getStrField, h, asStr] at h1
      · have h1 := hp.2.2.2.1
        simp [getOptionsField, h, asStrList] at h1
      · have h1 := hp.2.2.2.2.1
        simp [getConfField, h, pyFloatOf] at h1
      · have h1 := hp.2.2.2.2.2.1
        simp [getStrField, h, asStr] at h1
  · intro llm hf hb
    rw [analyze_eq_llmFields, hf]
    simp [hb]

/-- C2 counterexample: an LLM response whose `title` field is present with
value null does not get the documented title default "Prediction: ..." —
construction fails and the whole event is the fallback event. -/
theorem C2_counterexample :
    analyze (some "\x7b\"title\": null\x7d".data) examplePage = fallbackEvent examplePage ∧
    (analyze (some "\x7b\"title\": null\x7d".data) examplePage).title ≠ defaultTitle examplePage :=
  ⟨rfl, by decide⟩

theorem C2_witness :
    buildEvent ([] : JObj) examplePage = some C2ev ∧
    C2ev.title = defaultTitle examplePage ∧
    C2ev.confidence = ⟨7, 1⟩ ∧
    buildEvent [("confidence".data, JVal.jnull)] examplePage = none ∧
    analyze (some "\x7b\"confidence\": null\x7d".data) examplePage
      = fallbackEvent examplePage := by
  have hnull : buildEvent [("confidence".data, JVal.jnull)] examplePage = none :=
    (C2_missing_field_defaults examplePage [("confidence".data, JVal.jnull)]).2.1
      (Or.inr (Or.inr (Or.inr (Or.inr (Or.inl rfl)))))
  refine ⟨rfl, ?_, ?_, hnull, ?_⟩
  · exact ((C2_missing_field_defaults examplePage []).1 C2ev rfl).1 rfl
  · exact ((C2_missing_field_defaults examplePage []).1 C2ev rfl).2.2.2.2.1 rfl
  · exact (C2_missing_field_defaults examplePage [("confidence".data, JVal.jnull)]).2.2
      (some "\x7b\"confidence\": null\x7d".data) rfl hnull

end UrlScraper

namespace UrlScraper

/-- C7: with no LLM configured, `analyze` deterministically builds the
fallback event from the page title per the stated formulas; on a page
titled "Example Domain" with content length 850 the synthesized event is
exactly the spec's end-to-end scenario event. -/
theorem C7_fallback_synthesis :
    (∀ p : ScrapedPage,
      (analyze none p).title
        = "Will \x27".data ++ p.title.take 50 ++ "\x27 predictions come true?".data ∧
      (analyze none p).description = "Based on: ".data ++ p.title ∧
      (analyze none p).category = "general".data ∧
      (analyze none p).options = ["Yes".data, "No".data, "Partially".data] ∧
      (analyze none p).confidence = ⟨5, 1⟩) ∧
    (∀ (content url domain : Str), content.length = 850 →
      analyze none ⟨"Example Domain".data, content, url, domain⟩ =
        { title := "Will \x27Example Domain\x27 predictions come true?".data
          description := "Based on: Example Domain".data
          category := "general".data
          options := ["Yes".data, "No".data, "Partially".data]
          confidence := ⟨5, 1⟩
          source_url := url
          resolution_date := defaultResolutionDate }) := by
  constructor
  · intro p
    exact ⟨rfl, rfl, rfl, rfl, rfl⟩
  · intro content url domain _
    show fallbackEvent _ = _
    unfold fallbackEvent
    simp only [PredictionEvent.mk.injEq]
    refine ⟨?_, ?_, ?_, ?_, ?_, ?_, ?_⟩ <;> trivial

theorem C7_witness :
    (List.replicate 850 'a').length = 850 ∧
    analyze none examplePage =
      { title := "Will \x27Example Domain\x27 predictions come true?".data
        description := "Based on: Example Domain".data
        category := "general".data
        options := ["Yes".data, "No".data, "Partially".data]
        confidence := ⟨5, 1⟩
        source_url := "http://example.com".data
        resolution_date := defaultResolutionDate } := by
  refine ⟨by rw [List.length_replicate], ?_⟩
  exact C7_fallback_synthesis.2 (List.replicate 850 'a') "http://example.com".data
    "example.com".data (by rw [List.length_replicate])

/-- C8: given a fetched document, the extractor rejects exactly when the
extracted text truncated to 5000 characters is shorter than 100; any
returned page has content length in [100, 5000], and its title is
"Untitled" when the document had no title element. -/
theorem C8_content_gate :
    ∀ (doc : HtmlDoc) (url domain : Str),
      (scrape_url (some doc) url domain = none ↔
        ((doc.mainText.getD []).take 5000).length < 100) ∧
      (∀ p, scrape_url (some doc) url domain = some p →
        100 ≤ p.content.length ∧ p.content.length ≤ 5000 ∧
        (doc.titleText = none → p.title = "Untitled".data)) := by
  intro doc url domain
  constructor
  · simp only [scrape_url]
    split
    · rename_i h
      exact iff_of_true rfl h
    · rename_i h
      exact iff_of_false (fun hc => Option.noConfusion hc) h
  · intro p hp
    simp only [scrape_url] at hp
    split at hp
    · exact Option.noConfusion hp
    · rename_i h
      injection hp with hp
      subst hp
      dsimp only
      refine ⟨by omega, ?_, ?_⟩
      · simp only [List.length_take]
        omega
      · intro ht
        rw [ht]
        rfl

theorem C8_witness :
    scrape_url (some ⟨none, some (List.replicate 120 'x')⟩) [] []
      = some ⟨"Untitled".data, List.replicate 120 'x', [], []⟩ ∧
    100 ≤ (⟨"Untitled".data, List.replicate 120 'x', [], []⟩ : ScrapedPage).content.length ∧
    scrape_url (some ⟨none, some (List.replicate 85 'x')⟩) [] [] = none := by
  have h := (C8_content_gate ⟨none, some (List.replicate 120 'x')⟩ [] []).2
    ⟨"Untitled".data, List.replicate 120 'x', [], []⟩ rfl
  refine ⟨rfl, h.1, ?_⟩
  exact (C8_content_gate ⟨none, some (List.replicate 85 'x')⟩ [] []).1.mpr (by decide)

end UrlScraper

namespace UrlScraper

/-- C6: the publisher's identifier extraction is by Python truthiness, not
mere presence: it returns the `id` value only when that value is truthy;
a falsy `id` (0, "", null or absent) falls through to `market_id`, then to
`event_id` (amended from: the first PRESENT field is returned, so that a
response with id = 0 would yield 0). -/
theorem C6_extract_priority :
    ∀ (data : JObj),
      (truthy (jgetOrNull data "id".data) = true →
        post_to_blockchain (some 200) (some data)
          = some (jgetOrNull data "id".data)) ∧
      (truthy (jgetOrNull data "id".data) = false →
        truthy (jgetOrNull data "market_id".data) = true →
        post_to_blockchain (some 200) (some data)
          = some (jgetOrNull data "market_id".data)) ∧
      (truthy (jgetOrNull data "id".data) = false →
        truthy (jgetOrNull data "market_id".data) = false →
        post_to_blockchain (some 200) (some data)
          = some (jgetOrNull data "event_id".data)) := by
  intro data
  refine ⟨?_, ?_, ?_⟩
  · intro h1
    simp [post_to_blockchain, extract_event_id, pyOrJ, h1]
  · intro h1 h2
    simp [post_to_blockchain, extract_event_id, pyOrJ, h1, h2]
  · intro h1 h2
    simp [post_to_blockchain, extract_event_id, pyOrJ, h1, h2]

/-- C6 counterexample: a successful response containing all three fields
with `id = 0` yields the `market_id` value 5, not the `id` value 0. -/
theorem C6_counterexample :
    post_to_blockchain (some 200)
        (some [("id".data, JVal.jnum ⟨0, 0⟩), ("market_id".data, JVal.jnum ⟨5, 0⟩),
          ("event_id".data, JVal.jnum ⟨7, 0⟩)])
      = some (JVal.jnum ⟨5, 0⟩) ∧
    post_to_blockchain (some 200)
        (some [("id".data, JVal.jnum ⟨0, 0⟩), ("market_id".data, JVal.jnum ⟨5, 0⟩),
          ("event_id".data, JVal.jnum ⟨7, 0⟩)])
      ≠ some (JVal.jnum ⟨0, 0⟩) := by
  constructor
  · rfl
  · intro h
    rw [show post_to_blockchain (some 200)
        (some [("id".data, JVal.jnum ⟨0, 0⟩), ("market_id".data, JVal.jnum ⟨5, 0⟩),
          ("event_id".data, JVal.jnum ⟨7, 0⟩)])
      = some (JVal.jnum ⟨5, 0⟩) from rfl] at h
    simp at h

theorem C6_witness :
    truthy (jgetOrNull [("id".data, JVal.jstr "abc".data)] "id".data) = true ∧
    post_to_blockchain (some 200) (some [("id".data, JVal.jstr "abc".data)])
      = some (jgetOrNull [("id".data, JVal.jstr "abc".data)] "id".data) :=
  ⟨rfl, (C6_extract_priority [("id".data, JVal.jstr "abc".data)]).1 rfl⟩

end UrlScraper

namespace UrlScraper

/-- The scan `pyFindAux` finds the first occurrence: a prefix free of `c` followed
by `c` gives the prefix's length. -/
theorem pyFindAux_first (c : Char) (a : Str) (h : c ∉ a) (l : Str) :
    pyFindAux c (a ++ c :: l) = some a.length := by
  induction a with
  | nil => simp [pyFindAux]
  | cons x xs ih =>
    have hx : ¬ x = c := by
      intro he
      subst he
      exact absurd (List.mem_cons_self x xs) h
    have hxs : c ∉ xs := fun hm => h (List.mem_cons_of_mem _ hm)
    simp [pyFindAux, hx, ih hxs]

/-- C3: the JSON-locating step takes the substring from the FIRST `\x7b` of
the text to the LAST `\x7d` — not the first balanced span: whenever the
text decomposes as `a ++ b ++ c` with no `\x7b` in `a`, no `\x7d` in `c`,
and `b` starting with `\x7b` and ending with `\x7d`, the whole of `b` is
selected, even if `b` contains several disjoint balanced objects (amended
from: exactly the first balanced span is selected and parsed). -/
theorem C3_locate_first_to_last :
    ∀ (a b c3 : Str), '\x7b' ∉ a → '\x7d' ∉ c3 →
      (∃ b', b = '\x7b' :: b') → (∃ b'', b = b'' ++ ['\x7d']) →
      locate (a ++ b ++ c3) = some b := by
  intro a b c3 ha hc hb1 hb2
  obtain ⟨b'', hb''⟩ := hb2
  have hblen : 1 ≤ b.length := by
    obtain ⟨b', hb'⟩ := hb1
    subst hb'
    simp
  have hfind : pyFind '\x7b' (a ++ b ++ c3) = some a.length := by
    obtain ⟨b', hb'⟩ := hb1
    subst hb'
    rw [List.append_assoc, List.cons_append]
    exact pyFindAux_first _ a ha _
  have hrev : (a ++ b ++ c3).reverse = c3.reverse ++ '\x7d' :: (b''.reverse ++ a.reverse) := by
    subst hb''
    simp [List.reverse_append]
  have hrfind : pyRfind '\x7d' (a ++ b ++ c3) = some (a.length + b.length - 1) := by
    unfold pyRfind
    rw [hrev, pyFindAux_first _ _ (fun hm => hc (List.mem_reverse.mp hm)) _]
    simp only [Option.map_some', List.length_reverse, List.length_append]
    congr 1
    omega
  unfold locate
  rw [hfind, hrfind]
  dsimp only
  rw [if_pos (by omega)]
  congr 1
  have hdrop : (a ++ b ++ c3).drop a.length = b ++ c3 := by
    rw [List.append_assoc]
    exact List.drop_left a (b ++ c3)
  rw [hdrop, show a.length + b.length - 1 + 1 - a.length = b.length from by omega]
  exact List.take_left b c3

/-- C3 counterexample: on a response holding two disjoint balanced objects,
the first balanced span is the first object alone, but the code's locating
step selects the whole text (first `\x7b` to last `\x7d`); parsing that
selection fails, so the fallback event is produced — the first object is
NOT parsed. -/
theorem C3_counterexample :
    firstBalancedSpan twoObjTxt = some "\x7b\"a\": 1\x7d".data ∧
    locate twoObjTxt = some twoObjTxt ∧
    locate twoObjTxt ≠ firstBalancedSpan twoObjTxt ∧
    json_loads twoObjTxt = none ∧
    analyze (some twoObjTxt) examplePage = fallbackEvent examplePage := by
  refine ⟨rfl, rfl, by decide, rfl, rfl⟩

theorem C3_witness :
    ('\x7b' ∉ "x".data) ∧ ('\x7d' ∉ "y".data) ∧
    locate ("x".data ++ "\x7b\"k\": 1\x7d".data ++ "y".data)
      = some "\x7b\"k\": 1\x7d".data := by
  refine ⟨by decide, by decide, ?_⟩
  exact C3_locate_first_to_last "x".data "\x7b\"k\": 1\x7d".data "y".data
    (by decide) (by decide)
    ⟨"\"k\": 1\x7d".data, by decide⟩ ⟨"\x7b\"k\": 1".data, by decide⟩

end UrlScraper

namespace UrlScraper

/-- C4: each parsed entry maps to a `FeedItem`; `summary` falls back to the
`description` field when `summary` is missing (then truncated to 200
characters); missing `link`/`published` render as the empty string — but a
missing `title` renders as "Untitled", not as the empty string (amended
from: every missing field, including the title, renders as empty string). -/
theorem C4_feed_item_defaults :
    (∀ (fp : FPFeed) (url : Str) (f : Feed),
      parse_rss (some fp) url = some f → f.items = fp.entries.map entryToItem) ∧
    (∀ e : FPEntry,
      (entryToItem e).summary = (e.esummary.getD (e.edescription.getD [])).take 200 ∧
      (e.esummary = none →
        (entryToItem e).summary = (e.edescription.getD []).take 200) ∧
      (e.etitle = none → (entryToItem e).title = "Untitled".data) ∧
      (e.elink = none → (entryToItem e).link = []) ∧
      (e.epublished = none → (entryToItem e).published = [])) := by
  constructor
  · intro fp url f hf
    simp only [parse_rss] at hf
    split at hf
    · exact Option.noConfusion hf
    · injection hf with hf
      rw [← hf]
  · intro e
    refine ⟨rfl, ?_, ?_, ?_, ?_⟩
    · intro h
      simp [entryToItem, h]
    · intro h
      simp [entryToItem, h]
    · intro h
      simp [entryToItem, h]
    · intro h
      simp [entryToItem, h]

/-- C4 counterexample: an entry with no fields at all yields the item title
"Untitled", not the empty string. -/
theorem C4_counterexample :
    (entryToItem ⟨none, none, none, none, none⟩).title = "Untitled".data ∧
    (entryToItem ⟨none, none, none, none, none⟩).title ≠ [] ∧
    parse_rss (some ⟨false, none, none, [⟨none, none, none, none, none⟩]⟩) "http://e.x/f".data
      = some ⟨"Unknown Feed".data, "http://e.x/f".data, [⟨"Untitled".data, [], [], []⟩]⟩ := by
  refine ⟨rfl, by decide, rfl⟩

theorem C4_witness :
    parse_rss (some ⟨false, none, none, [⟨none, none, none, some "D".data, none⟩]⟩) "u".data
      = some ⟨"Unknown Feed".data, "u".data,
          [⟨"Untitled".data, [], "D".data, []⟩]⟩ ∧
    (⟨none, none, none, some "D".data, none⟩ : FPEntry).esummary = none ∧
    (entryToItem ⟨none, none, none, some "D".data, none⟩).summary
      = (((⟨none, none, none, some "D".data, none⟩ : FPEntry).edescription.getD []).take 200) ∧
    (entryToItem ⟨none, none, none, some "D".data, none⟩).title = "Untitled".data ∧
    (⟨"Untitled".data, [], "D".data, []⟩ : FeedItem)
      = entryToItem ⟨none, none, none, some "D".data, none⟩ ∧
    [entryToItem ⟨none, none, none, some "D".data, none⟩]
      = [(⟨none, none, none, some "D".data, none⟩ : FPEntry)].map entryToItem := by
  refine ⟨rfl, rfl, ?_, ?_, rfl, ?_⟩
  · exact (C4_feed_item_defaults.2 ⟨none, none, none, some "D".data, none⟩).2.1 rfl
  · exact (C4_feed_item_defaults.2 ⟨none, none, none, some "D".data, none⟩).2.2.1 rfl
  · exact (C4_feed_item_defaults.1 ⟨false, none, none, [⟨none, none, none, some "D".data, none⟩]⟩
      "u".data ⟨"Unknown Feed".data, "u".data, [entryToItem ⟨none, none, none, some "D".data, none⟩]⟩ rfl)

end UrlScraper

namespace UrlScraper

/-- Lowercasing leaves an ASCII digit unchanged. -/
theorem lowerChar_digit {c : Char} (h : isDigitC c = true) : lowerChar c = c := by
  unfold isDigitC at h
  simp only [Bool.and_eq_true, decide_eq_true_eq] at h
  unfold lowerChar
  rw [if_neg]
  omega

/-- Lowercasing leaves an all-digit string unchanged. -/
theorem lowerStr_of_digits {t : Str} (h : ∀ c ∈ t, isDigitC c = true) :
    lowerStr t = t := by
  unfold lowerStr
  induction t with
  | nil => rfl
  | cons x xs ih =>
    simp only [List.map_cons]
    rw [lowerChar_digit (h x (List.mem_cons_self x xs)),
      ih (fun c hc => h c (List.mem_cons_of_mem _ hc))]

end UrlScraper

namespace UrlScraper

/-- C10: the interactive `post` command reports "no event to post" and makes
no POST when `last_event` is unset; when set, it previews the payload and
POSTs only after an explicit confirmation of `y`/`yes` (after strip+lower);
any other reply cancels with no POST and leaves the session state
unchanged. -/
theorem C10_post_confirmation :
    ∀ (w : World) (st : SessionState),
      (st.last_event = none →
        step w st "post".data = (st, [Out.msgNoEvent]) ∧
        ∀ ev, Out.postCall ev ∉ (step w st "post".data).2) ∧
      (∀ ev, st.last_event = some ev →
        (¬ (lowerStr (strip w.confirm) = "y".data ∨
            lowerStr (strip w.confirm) = "yes".data) →
          step w st "post".data = (st, [Out.msgPreview ev, Out.msgCancelled]) ∧
          ∀ e2, Out.postCall e2 ∉ (step w st "post".data).2) ∧
        ((lowerStr (strip w.confirm) = "y".data ∨
          lowerStr (strip w.confirm) = "yes".data) →
          step w st "post".data =
            (st, [Out.msgPreview ev, Out.postCall ev,
              Out.msgPostResult (truthyResp w.postResp)]))) := by
  intro w st
  have hstep : step w st "post".data = postFlow w st := rfl
  constructor
  · intro h
    have heq : step w st "post".data = (st, [Out.msgNoEvent]) := by
      rw [hstep]
      unfold postFlow
      rw [h]
    refine ⟨heq, ?_⟩
    intro ev
    rw [heq]
    simp
  · intro ev hev
    constructor
    · intro hno
      have heq : step w st "post".data = (st, [Out.msgPreview ev, Out.msgCancelled]) := by
        rw [hstep]
        unfold postFlow
        rw [hev]
        dsimp only
        rw [if_neg hno]
      refine ⟨heq, ?_⟩
      intro e2
      rw [heq]
      simp
    · intro hyes
      rw [hstep]
      unfold postFlow
      rw [hev]
      dsimp only
      rw [if_pos hyes]

theorem C10_witness :
    ((⟨none, []⟩ : SessionState).last_event = none ∧
      step wNoW ⟨none, []⟩ "post".data = (⟨none, []⟩, [Out.msgNoEvent])) ∧
    (stEvW.last_event = some evW ∧
      step wNoW stEvW "post".data = (stEvW, [Out.msgPreview evW, Out.msgCancelled]) ∧
      step wYesW stEvW "post".data =
        (stEvW, [Out.msgPreview evW, Out.postCall evW, Out.msgPostResult true])) := by
  refine ⟨⟨rfl, ?_⟩, rfl, ?_, ?_⟩
  · exact ((C10_post_confirmation wNoW ⟨none, []⟩).1 rfl).1
  · exact (((C10_post_confirmation wNoW stEvW).2 evW rfl).1 (by decide)).1
  · exact (((C10_post_confirmation wYesW stEvW).2 evW rfl).2 (by decide))

end UrlScraper

namespace UrlScraper

/-- C9: with a feed listing stored, an input whose first token is a DIGIT
string (Python `isdigit`) outside `[1, n]` reports the out-of-range error
naming the valid range and changes nothing, while a digit token inside
`[1, n]` scrapes the selected item's link and, on success, replaces
`last_event`.  A negatively signed integer such as `-1` is not a digit
token, so it is dispatched as an unknown command instead of the range
error (amended from: ANY integer outside `[1, n]` reports the range
error). -/
theorem C9_numeric_selection :
    ∀ (w : World) (st : SessionState) (input tok : Str) (restToks : List Str),
      splitWs (strip input) = tok :: restToks → isDigitsStr tok = true →
      st.last_rss_items ≠ [] →
      ((digitsToNat tok < 1 ∨ st.last_rss_items.length < digitsToNat tok) →
        step w st input = (st, [Out.msgOutOfRange st.last_rss_items.length])) ∧
      (1 ≤ digitsToNat tok → digitsToNat tok ≤ st.last_rss_items.length →
        (Out.scrapeCall (selectedItem st (digitsToNat tok)).link ∈ (step w st input).2 ∧
        (w.scrape (selectedItem st (digitsToNat tok)).link = none →
          step w st input =
            (st, [Out.scrapeCall (selectedItem st (digitsToNat tok)).link,
              Out.msgArticleScrapeFailed])) ∧
        (∀ d, w.scrape (selectedItem st (digitsToNat tok)).link = some d →
          (step w st input).1 = { st with last_event := some (cli_analyze w.llm d) }))) := by
  intro w st input tok restToks hsplit hdig hne
  have hlow : lowerStr tok = tok := by
    apply lowerStr_of_digits
    intro c hc
    have h2 := hdig
    unfold isDigitsStr at h2
    simp only [Bool.and_eq_true, List.all_eq_true] at h2
    exact h2.2 c hc
  have hemp : st.last_rss_items.isEmpty = false := by
    cases hx : st.last_rss_items with
    | nil => exact absurd hx hne
    | cons a l => rfl
  have hstep : step w st input = numericSelect w st (digitsToNat tok) := by
    unfold step
    dsimp only
    rw [hsplit]
    unfold dispatchTok
    dsimp only
    rw [hlow, hdig, hemp]
    rfl
  constructor
  · intro hout
    rw [hstep]
    unfold numericSelect
    rw [if_neg (by omega)]
  · intro h1 h2
    have hsel : step w st input =
        (match w.scrape (selectedItem st (digitsToNat tok)).link with
         | none => (st, [Out.scrapeCall (selectedItem st (digitsToNat tok)).link,
             Out.msgArticleScrapeFailed])
         | some d =>
           ({ st with last_event := some (cli_analyze w.llm d) },
             [Out.scrapeCall (selectedItem st (digitsToNat tok)).link,
               Out.msgEventShown (cli_analyze w.llm d)])) := by
      rw [hstep]
      unfold numericSelect selectedItem
      rw [if_pos ⟨h1, h2⟩]
    refine ⟨?_, ?_, ?_⟩
    · rw [hsel]
      cases hs : w.scrape (selectedItem st (digitsToNat tok)).link with
      | none => simp
      | some d => simp
    · intro hs
      rw [hsel, hs]
    · intro d hs
      rw [hsel, hs]

/-- C9 counterexample: with a 1-item listing stored, the input `-1` (an
integer outside `[1, 1]`) is reported as an unknown command, not as an
out-of-range selection, because `"-1"` fails Python's `isdigit` test. -/
theorem C9_counterexample :
    step wNoW stOneItem "-1".data = (stOneItem, [Out.msgUnknown]) ∧
    Out.msgOutOfRange 1 ∉ (step wNoW stOneItem "-1".data).2 := by
  refine ⟨by decide, by decide⟩

theorem C9_witness :
    splitWs (strip " 2 ".data) = ["2".data] ∧
    isDigitsStr "2".data = true ∧
    stOneItem.last_rss_items ≠ [] ∧
    step wNoW stOneItem " 2 ".data = (stOneItem, [Out.msgOutOfRange 1]) ∧
    Out.scrapeCall itemA.link ∈ (step wNoW stOneItem "1".data).2 ∧
    step wNoW stOneItem "1".data =
      (stOneItem, [Out.scrapeCall itemA.link, Out.msgArticleScrapeFailed]) := by
  refine ⟨rfl, rfl, by decide, ?_, ?_, ?_⟩
  · exact (C9_numeric_selection wNoW stOneItem " 2 ".data "2".data [] rfl rfl (by decide)).1
      (by decide)
  · exact ((C9_numeric_selection wNoW stOneItem "1".data "1".data [] rfl rfl (by decide)).2
      (by decide) (by decide)).1
  · exact ((C9_numeric_selection wNoW stOneItem "1".data "1".data [] rfl rfl (by decide)).2
      (by decide) (by decide)).2.1 rfl

end UrlScraper

namespace UrlScraper

/-- Running `splitWsAux` on a nonempty accumulator yields a first word extending
the accumulator. -/
theorem splitWsAux_acc (t : Str) :
    ∀ acc : Str, acc ≠ [] → ∃ wd ws, splitWsAux t acc = (acc.reverse ++ wd) :: ws := by
  induction t with
  | nil =>
    intro acc hacc
    refine ⟨[], [], ?_⟩
    unfold splitWsAux
    rw [if_neg (by simpa using hacc)]
    simp
  | cons c rest ih =>
    intro acc hacc
    unfold splitWsAux
    by_cases hsp : isSpC c = true
    · rw [if_pos hsp, if_neg (by simpa using hacc)]
      exact ⟨[], splitWsAux rest [], by simp⟩
    · rw [if_neg hsp]
      obtain ⟨wd, ws, heq⟩ := ih (c :: acc) (List.cons_ne_nil c acc)
      refine ⟨c :: wd, ws, ?_⟩
      rw [heq, List.reverse_cons, List.append_assoc]
      rfl

/-- The first whitespace token of a line starting `ht...` also starts `ht`. -/
theorem splitWs_ht (t2 : Str) :
    ∃ wd ws, splitWs ('h' :: 't' :: t2) = ('h' :: 't' :: wd) :: ws := by
  obtain ⟨wd, ws, heq⟩ := splitWsAux_acc t2 ['t', 'h'] (by simp)
  exact ⟨wd, ws, heq⟩

/-- A stripped line that passes the `http://`/`https://` prefix test is
dispatched to the bare-URL auto-detect branch: its first token starts with
`ht`, which matches no keyword and fails the digit test. -/
theorem step_url_dispatch (w : World) (st : SessionState) (input : Str)
    (hstrip : strip input = input) (hurl : isHttpUrl input = true) :
    step w st input = autoDetect w st input := by
  have hpre : ∃ t2, input = 'h' :: 't' :: 't' :: 'p' :: t2 := by
    unfold isHttpUrl at hurl
    simp only [Bool.or_eq_true] at hurl
    cases hurl with
    | inl h =>
      rw [ List.isPrefixOf_iff_prefix] at h
      obtain ⟨t, ht⟩ := h
      exact ⟨':' :: '/' :: '/' :: t, by rw [← ht]; rfl⟩
    | inr h =>
      rw [ List.isPrefixOf_iff_prefix] at h
      obtain ⟨t, ht⟩ := h
      exact ⟨'s' :: ':' :: '/' :: '/' :: t, by rw [← ht]; rfl⟩
  obtain ⟨t2, hin⟩ := hpre
  obtain ⟨wd, ws, hsp⟩ := splitWs_ht ('t' :: 'p' :: t2)
  rw [← hin] at hsp
  have h1 : step w st input = dispatchTok w st (strip input) ('h' :: 't' :: wd) ws := by
    unfold step
    dsimp only
    rw [hstrip, hsp]
  have h2 : dispatchTok w st input ('h' :: 't' :: wd) ws
      = if isHttpUrl input = true then autoDetect w st input
        else (st, [Out.msgUnknown]) := by
    subst hin
    rfl
  rw [h1, hstrip, h2, if_pos hurl]

/-- The state produced by the shared page-scrape tail does not depend on
the branch-specific failure message. -/
theorem scrapeAsPage_state (w : World) (st : SessionState) (url : Str)
    (m1 m2 : Out) : (scrapeAsPage w st url m1).1 = (scrapeAsPage w st url m2).1 := by
  unfold scrapeAsPage
  cases w.scrape url <;> rfl

end UrlScraper

namespace UrlScraper

/-- C5: for clipboard text beginning with http:// or https://, `paste`
matches the bare-URL branch only on the page-scrape path; when the text
parses as a feed with at least one item, `paste` merely DISPLAYS the first
3 items and leaves `last_feed_items` (and the whole session state)
unchanged, whereas typing the same text stores those items for numeric
selection (amended from: `paste` behaves exactly like the bare-URL branch,
in particular storing the items so numeric selection works afterwards). -/
theorem C5_paste_vs_url :
    ∀ (w : World) (st : SessionState) (txt : Str),
      w.clip = some txt → isHttpUrl txt = true → strip txt = txt →
      (∀ f, parse_rss (w.feeds txt) txt = some f → f.items ≠ [] →
        (step w st "paste".data).1 = st ∧
        (step w st "paste".data).2
          = [Out.feedCall txt, Out.msgFeedShown (f.items.take 3)] ∧
        (step w st txt).1 = { st with last_rss_items := f.items.take 3 }) ∧
      ((parse_rss (w.feeds txt) txt = none ∨
        (∃ f, parse_rss (w.feeds txt) txt = some f ∧ f.items = [])) →
        (step w st "paste".data).1 = (step w st txt).1) := by
  intro w st txt hclip hurl hstrip
  have hpaste : step w st "paste".data = pasteFlow w st := rfl
  have hurlstep : step w st txt = autoDetect w st txt :=
    step_url_dispatch w st txt hstrip hurl
  have hne : txt.isEmpty = false := by
    cases txt with
    | nil => exact absurd hurl (by decide)
    | cons a l => rfl
  constructor
  · intro f hf hfi
    have hfe : f.items.isEmpty = false := by
      cases hx : f.items with
      | nil => exact absurd hx hfi
      | cons a l => rfl
    have hp : pasteFlow w st
        = (st, [Out.feedCall txt, Out.msgFeedShown (f.items.take 3)]) := by
      unfold pasteFlow
      rw [hclip]
      dsimp only
      rw [if_neg (by simp [hne]), if_pos hurl, hf]
      dsimp only
      rw [if_neg (by simp [hfe])]
    have ha : autoDetect w st txt
        = ({ st with last_rss_items := f.items.take 3 },
            [Out.feedCall txt, Out.msgFeedStored (f.items.take 3)]) := by
      unfold autoDetect
      rw [hf]
      dsimp only
      rw [if_neg (by simp [hfe])]
    exact ⟨by rw [hpaste, hp], by rw [hpaste, hp], by rw [hurlstep, ha]⟩
  · intro hcase
    rw [hpaste, hurlstep]
    unfold pasteFlow autoDetect
    rw [hclip]
    dsimp only
    rw [if_neg (by simp [hne]), if_pos hurl]
    cases hcase with
    | inl h =>
      rw [h]
      dsimp only
      exact scrapeAsPage_state w st txt Out.msgPasteScrapeFailed Out.msgUrlParseFailed
    | inr h =>
      obtain ⟨f, hf, hfi⟩ := h
      rw [hf]
      dsimp only
      rw [if_pos (show f.items.isEmpty = true by rw [hfi]; rfl),
        if_pos (show f.items.isEmpty = true by rw [hfi]; rfl)]
      dsimp only
      exact scrapeAsPage_state w st txt Out.msgPasteScrapeFailed Out.msgUrlParseFailed

end UrlScraper

namespace UrlScraper

/-- C5 counterexample: pasting a clipboard URL that parses as a one-item
feed leaves the session state (in particular `last_feed_items`) unchanged,
while typing the very same URL stores the item — the two behaviours
differ, and numeric selection does not become available after `paste`. -/
theorem C5_counterexample :
    (step wFeedW ⟨none, []⟩ "paste".data).1 = ⟨none, []⟩ ∧
    (step wFeedW ⟨none, []⟩ urlA).1.last_rss_items = [itemA] ∧
    (step wFeedW ⟨none, []⟩ "paste".data).1 ≠ (step wFeedW ⟨none, []⟩ urlA).1 := by
  refine ⟨by decide, by decide, by decide⟩

theorem C5_witness :
    wFeedW.clip = some urlA ∧ isHttpUrl urlA = true ∧ strip urlA = urlA ∧
    parse_rss (wFeedW.feeds urlA) urlA = some feedA ∧ feedA.items ≠ [] ∧
    (step wFeedW ⟨none, []⟩ "paste".data).1 = ⟨none, []⟩ ∧
    (step wFeedW ⟨none, []⟩ urlA).1 = ⟨none, [itemA]⟩ := by
  refine ⟨rfl, rfl, rfl, rfl, by decide, ?_, ?_⟩
  · exact ((C5_paste_vs_url wFeedW ⟨none, []⟩ urlA rfl rfl rfl).1 feedA rfl (by decide)).1
  · exact ((C5_paste_vs_url wFeedW ⟨none, []⟩ urlA rfl rfl rfl).1 feedA rfl (by decide)).2.2

end UrlScraper
